import Mathlib

/-!
Verification of the `modules/analytics` profiles data store
(`assets/js/modules/analytics/datastore/profiles.js`, given as
`src/unnamed/part_001`).

The store is a Redux-like module built on `createFetchStore`: a selector
`getProfiles( state, propertyID )` reads a cached list of profiles keyed by
property ID, a resolver lazily triggers a single fetch per property ID, and a
`createProfile` action validates its parameters, posts to the backend, and on
success appends the created profile to the cached list.

The reducers, selectors, resolver and action bodies below are translated
directly from the source.  The surrounding framework (`createFetchStore`, the
validation utilities, the `constants` module and the registry's resolution
cache) is not among the given sources; those parts are modelled from the
specification and carry a doc comment saying so.

Network interaction is made explicit: every fetch takes its outcome (the HTTP
response or the error payload) as a parameter, and the functions that invoke
the control (network) callback report how many requests they issued.
-/

/-- A Google Analytics profile (view) as it appears in API response bodies.
Only the `id` field is inspected by the store (for the profile ID default);
the `name` field stands for the rest of the payload. -/
structure Profile where
  id : String
  name : String
  deriving DecidableEq, Repr

/-- The WP REST error payload shape `{ code, message, data: { status } }`. -/
structure ErrorObject where
  code : String
  message : String
  status : Nat
  deriving DecidableEq, Repr

/-- Outcome of one HTTP request: the parsed response body on success, or the
error payload on failure. -/
inductive FetchResult (α : Type) where
  | success : α → FetchResult α
  | failure : ErrorObject → FetchResult α
  deriving DecidableEq

/-- The `{ response, error }` object a fetch action resolves with. -/
structure FetchReturn (α : Type) where
  response : Option α
  error : Option ErrorObject
  deriving DecidableEq

/-- Consume leading decimal digits of a character list. -/
def skipDigits : List Char → List Char
  | [] => []
  | c :: rest => if c.isDigit then skipDigits rest else c :: rest

/-- Consume one or more leading decimal digits; `none` if there is no digit. -/
def digitsThen (cs : List Char) : Option (List Char) :=
  match cs with
  | [] => none
  | c :: rest => if c.isDigit then some (skipDigits rest) else none

/-- Modelled from the spec: `isValidPropertyID` from the analytics `util`
module, which is not among the given sources.  A resource key (property ID)
must be deterministically shaped; a Google Analytics property ID has the form
`UA-<digits>-<digits>`. -/
def isValidPropertyID (s : String) : Bool :=
  match s.data with
  | 'U' :: 'A' :: '-' :: rest =>
    match digitsThen rest with
    | some ('-' :: rest2) =>
      match digitsThen rest2 with
      | some [] => true
      | _ => false
    | _ => false
  | _ => false

/-- Whitespace as far as profile-name blankness is concerned. -/
def isSpaceChar (c : Char) : Bool :=
  c = ' ' || c = '\t' || c = '\n' || c = '\r'

/-- Modelled from the spec: `isValidProfileName` from the analytics `util`
module, which is not among the given sources.  The required `profileName`
parameter must be a non-blank string. -/
def isValidProfileName (s : String) : Bool :=
  s.data.any (fun c => !isSpaceChar c)

/-- Modelled from the spec: the `PROFILE_CREATE` sentinel exported by the
`constants` module, which is not among the given sources.  It is an opaque
marker meaning "create a new profile"; its concrete value is immaterial to
the store logic. -/
def PROFILE_CREATE : String := "profile_create"

/-- Pointwise update of a string-keyed map, mirroring the JS object spread
`\x7b ...state.profiles, [ propertyID ]: v \x7d`. -/
def upd {α : Type} (f : String → α) (k : String) (v : α) : String → α :=
  fun x => if x = k then v else f x

/-- Lookup in an insertion-ordered JS object, represented as an association
list with unique keys. -/
def lookupAssoc (l : List ((String × String) × Bool)) (k : String × String) :
    Option Bool :=
  match l with
  | [] => none
  | kv :: rest => if kv.1 = k then some kv.2 else lookupAssoc rest k

/-- Keyed update of an insertion-ordered JS object: replace the value in
place if the key exists, append otherwise. -/
def setAssoc (l : List ((String × String) × Bool)) (k : String × String)
    (v : Bool) : List ((String × String) × Bool) :=
  match l with
  | [] => [(k, v)]
  | kv :: rest => if kv.1 = k then (k, v) :: rest else kv :: setAssoc rest k v

/-- The combined state of the profiles store.

`profiles`, keyed by property ID, is `BASE_INITIAL_STATE`'s field (source
lines 89–91) merged by `Data.combineStores` with the state of the two fetch
stores: the per-key `isFetchingGetProfiles` flags, the per-argument
`isFetchingCreateProfile` flags, and the store-wide last `error` (modelled
from the spec: `createFetchStore`'s `receiveError` state is not among the
given sources).

`profileID` is the profile selection read and written through
`getProfileID` / `setProfileID` (their store module is not among the given
sources; modelled from the spec; `none` is JS `undefined`).

`startedGetProfiles` models the registry's resolution cache (the spec's
"schedules a fetch exactly once, then stops"): the set of property IDs whose
`getProfiles` resolver has already been started.  `erroredGetProfiles` is a
history field recording the keys whose fetch failed; it exists only to state
the spec's per-key CacheEntry status and affects no behaviour. -/
structure State where
  profiles : String → Option (List Profile)
  profileID : Option String
  isFetchingGetProfiles : String → Bool
  isFetchingCreateProfile : List ((String × String) × Bool)
  error : Option ErrorObject
  startedGetProfiles : List String
  erroredGetProfiles : List String

/-- The initial state of the combined store: `BASE_INITIAL_STATE` is
`\x7b profiles: \x7b\x7d \x7d` (source lines 89–91); the fetch-store and
framework parts start empty. -/
def INITIAL_STATE : State where
  profiles := fun _ => none
  profileID := none
  isFetchingGetProfiles := fun _ => false
  isFetchingCreateProfile := []
  error := none
  startedGetProfiles := []
  erroredGetProfiles := []

/-- Selector `getProfiles( state, propertyID )` (source lines 153–157):
returns `state.profiles[ propertyID ]`, i.e. `undefined` (`none`) until a
profiles list has been received for that property ID. -/
def getProfiles (s : State) (propertyID : String) : Option (List Profile) :=
  s.profiles propertyID

/-- Selector `isDoingCreateProfile( state )` (source lines 167–171):
`Object.values( state.isFetchingCreateProfile ).some( Boolean )`. -/
def isDoingCreateProfile (s : State) : Bool :=
  s.isFetchingCreateProfile.any (fun kv => kv.2)

/-- Selector `isDoingGetProfiles( state, propertyID )` (source lines
182–184): defers to the fetch store's `isFetchingGetProfiles` flag for the
given property ID. -/
def isDoingGetProfiles (s : State) (propertyID : String) : Bool :=
  s.isFetchingGetProfiles propertyID

/-- Modelled from the spec: the store-wide error selector (`getError` in the
tests); `createFetchStore`'s error bookkeeping is not among the given
sources.  Returns the last stored request-error payload. -/
def getError (s : State) : Option ErrorObject :=
  s.error

/-- `fetchGetProfilesStore.reducerCallback` (source lines 45–53): store the
received profiles list unchanged (a fresh array copy) under the requested
property ID, leaving all other keys as they were. -/
def fetchGetProfiles_reducerCallback (s : State) (profiles : List Profile)
    (propertyID : String) : State :=
  { s with profiles := upd s.profiles propertyID profiles }

/-- `fetchCreateProfileStore.reducerCallback` (source lines 70–81): append
the created profile to `state.profiles[ propertyID ] || []`, leaving all
other keys as they were. -/
def fetchCreateProfile_reducerCallback (s : State) (profile : Profile)
    (propertyID : String) : State :=
  { s with
      profiles :=
        upd s.profiles propertyID ((s.profiles propertyID).getD [] ++ [profile]) }

/-- Dispatch `setProfileID` (source line 134; the properties store holding
the reducer is not among the given sources, modelled from the spec): record
the selected profile ID. -/
def setProfileID (s : State) (id : String) : State :=
  { s with profileID := some id }

/-- JS truthiness of the `profileID` value: `undefined` and the empty string
are falsy. -/
def truthyOpt (o : Option String) : Bool :=
  match o with
  | none => false
  | some v => v ≠ ""

/-- `profiles[ 0 ] || \x7b id: PROFILE_CREATE \x7d` then `.id` (source line
133): the ID of the first profile, or the `PROFILE_CREATE` sentinel when the
list is empty. -/
def headProfileID (ps : List Profile) : String :=
  match ps with
  | [] => PROFILE_CREATE
  | p :: _ => p.id

/-- The tail of the `getProfiles` resolver (source lines 131–135): once a
profiles list is available (`profiles` not `undefined`), if no profile ID is
currently selected (`! profileID`), select the first profile's ID or the
`PROFILE_CREATE` sentinel. -/
def profileIDDefaultStep (s : State) (profiles : Option (List Profile)) :
    State :=
  match profiles with
  | none => s
  | some ps =>
    if truthyOpt s.profileID then s
    else setProfileID s (headProfileID ps)

/-- The `getProfiles` resolver (source lines 117–136) run up to its network
suspension point, guarded by the registry's resolution cache (modelled from
the spec: a resolver is started at most once per argument set).  Returns the
new state and the number of network requests issued (`1` exactly when the
resolver reaches `fetchGetProfiles`): an already-started key is a no-op; an
invalid property ID returns early; a cached list skips the fetch and runs
the profile-ID default logic; otherwise the fetch is started, marking the
key as fetching. -/
def resolveGetProfilesRun (propertyID : String) (s : State) : State × Nat :=
  if propertyID ∈ s.startedGetProfiles then (s, 0)
  else
    let s0 := { s with startedGetProfiles := propertyID :: s.startedGetProfiles }
    if isValidPropertyID propertyID = false then (s0, 0)
    else
      match getProfiles s0 propertyID with
      | some profiles => (profileIDDefaultStep s0 (some profiles), 0)
      | none =>
        ({ s0 with isFetchingGetProfiles := upd s0.isFetchingGetProfiles propertyID true }, 1)

/-- Resumption of the `getProfiles` resolver when the pending network request
settles.  On success the response is merged by
`fetchGetProfiles_reducerCallback`, the fetching flag clears, and the
resolver continues with the received list (source lines 128, 131–135).  On
failure the error payload is stored (modelled from the spec: request errors
are captured and surfaced via the error selector), the fetching flag clears,
the key is recorded in the `erroredGetProfiles` history, and the resolver
resumes with `profiles` still `undefined`, so the profile-ID step is a
no-op. -/
def finishGetProfilesPending (propertyID : String)
    (outcome : FetchResult (List Profile)) (s : State) : State :=
  match outcome with
  | .success profiles =>
    let s1 := fetchGetProfiles_reducerCallback s profiles propertyID
    let s2 := { s1 with
      isFetchingGetProfiles := upd s1.isFetchingGetProfiles propertyID false }
    profileIDDefaultStep s2 (some profiles)
  | .failure e =>
    let s1 := { s with
      error := some e,
      isFetchingGetProfiles := upd s.isFetchingGetProfiles propertyID false,
      erroredGetProfiles := propertyID :: s.erroredGetProfiles }
    profileIDDefaultStep s1 none

/-- Start of `fetchCreateProfile` (modelled from the spec:
`createFetchStore`'s lifecycle is not among the given sources): mark the
request for this argument pair as in flight. -/
def fetchCreateProfile_start (propertyID profileName : String) (s : State) :
    State :=
  { s with
      isFetchingCreateProfile :=
        setAssoc s.isFetchingCreateProfile (propertyID, profileName) true }

/-- Settlement of `fetchCreateProfile`: on success the created profile is
merged by `fetchCreateProfile_reducerCallback` (source lines 70–81) and the
in-flight flag clears; on failure the error payload is stored and the
in-flight flag clears without touching `profiles`.  Returns the
`\x7b response, error \x7d` object the action resolves with. -/
def fetchCreateProfile_finish (propertyID profileName : String)
    (outcome : FetchResult Profile) (s : State) : State × FetchReturn Profile :=
  match outcome with
  | .success profile =>
    let s1 := fetchCreateProfile_reducerCallback s profile propertyID
    ({ s1 with
        isFetchingCreateProfile :=
          setAssoc s1.isFetchingCreateProfile (propertyID, profileName) false },
     { response := some profile, error := none })
  | .failure e =>
    ({ s with
        error := some e,
        isFetchingCreateProfile :=
          setAssoc s.isFetchingCreateProfile (propertyID, profileName) false },
     { response := none, error := some e })

/-- The `createProfile` action (source lines 107–113) run to completion with
the given network outcome.  The two `invariant` checks throw synchronously —
before the fetch store is ever invoked — when the property ID or the profile
name is invalid (`Except.error` carries the invariant message).  Otherwise
the fetch runs and the action returns its `\x7b response, error \x7d`.  The
second component counts the network requests issued: `0` on a validation
throw, `1` once the control callback runs. -/
def createProfile (propertyID profileName : String)
    (outcome : FetchResult Profile) (s : State) :
    Except String (State × FetchReturn Profile) × Nat :=
  if isValidPropertyID propertyID = false then
    (.error "a valid property ID is required to create a profile.", 0)
  else if isValidProfileName profileName = false then
    (.error "a valid name is required to create a profile.", 0)
  else
    (.ok (fetchCreateProfile_finish propertyID profileName outcome
      (fetchCreateProfile_start propertyID profileName s)), 1)

/-- An event of the store's single-threaded event loop.  Resolver and fetch
are split at the network suspension point, so states with a request in
flight are observable:
* `resolveGetProfilesOp pid`: a read access misses and the registry runs the
  `getProfiles` resolver up to its suspension point;
* `settleGetProfilesOp pid outcome`: the pending profiles request settles and
  the resolver resumes (a no-op if no request is in flight for `pid`);
* `createProfileStartOp pid name`: a `createProfile` action passes validation
  and issues its request (a validation throw leaves the state unchanged, so
  invalid parameters are represented by the absence of the event);
* `settleCreateProfileOp pid name outcome`: the pending create request
  settles (a no-op if none is in flight for this argument pair);
* `setProfileIDOp id`: the profile selection is set. -/
inductive Op where
  | resolveGetProfilesOp : String → Op
  | settleGetProfilesOp : String → FetchResult (List Profile) → Op
  | createProfileStartOp : String → String → Op
  | settleCreateProfileOp : String → String → FetchResult Profile → Op
  | setProfileIDOp : String → Op

/-- Apply one event to the store state. -/
def applyOp (op : Op) (s : State) : State :=
  match op with
  | .resolveGetProfilesOp pid => (resolveGetProfilesRun pid s).1
  | .settleGetProfilesOp pid outcome =>
    if s.isFetchingGetProfiles pid then finishGetProfilesPending pid outcome s
    else s
  | .createProfileStartOp pid name =>
    if isValidPropertyID pid && isValidProfileName name then
      fetchCreateProfile_start pid name s
    else s
  | .settleCreateProfileOp pid name outcome =>
    if lookupAssoc s.isFetchingCreateProfile (pid, name) = some true then
      (fetchCreateProfile_finish pid name outcome s).1
    else s
  | .setProfileIDOp id => setProfileID s id

/-- Number of requests to the profiles GET endpoint for the key `pid` that
this event issues from state `s`.  Only the `getProfiles` resolver calls
that endpoint. -/
def opGetProfilesCalls (pid : String) (op : Op) (s : State) : Nat :=
  match op with
  | .resolveGetProfilesOp pid' =>
    if pid' = pid then (resolveGetProfilesRun pid' s).2 else 0
  | _ => 0

/-- Run a sequence of events. -/
def runTrace : List Op → State → State
  | [], s => s
  | op :: ops, s => runTrace ops (applyOp op s)

/-- Total number of profiles GET requests for the key `pid` issued along a
sequence of events. -/
def traceGetProfilesCalls (pid : String) : List Op → State → Nat
  | [], _ => 0
  | op :: ops, s =>
    opGetProfilesCalls pid op s + traceGetProfilesCalls pid ops (applyOp op s)

/-- Whether an event is a read access (a run of the `getProfiles`
resolver). -/
def isResolveGetProfilesOp : Op → Bool
  | .resolveGetProfilesOp _ => true
  | _ => false

/-- Whether an event targets the key `pid` at all (reads it, settles a
request for it, or creates a profile under it). -/
def opTouches (pid : String) : Op → Bool
  | .resolveGetProfilesOp pid' => pid' = pid
  | .settleGetProfilesOp pid' _ => pid' = pid
  | .createProfileStartOp pid' _ => pid' = pid
  | .settleCreateProfileOp pid' _ _ => pid' = pid
  | .setProfileIDOp _ => false

/-- States reachable from the initial store state by events. -/
inductive Reachable : State → Prop where
  | init : Reachable INITIAL_STATE
  | step {s : State} (op : Op) : Reachable s → Reachable (applyOp op s)

/-- The spec's CacheEntry status for one resource key. -/
inductive EntryStatus where
  | unfetched
  | fetching
  | fetched
  | errored
  deriving DecidableEq, Repr

/-- The CacheEntry status of the key `pid`, read off the store state: a key
with a cached profiles list is `fetched`; otherwise a key with a profiles
request in flight is `fetching`; otherwise a key whose fetch has failed is
`errored`; otherwise `unfetched`. -/
def entryStatus (s : State) (pid : String) : EntryStatus :=
  if (s.profiles pid).isSome then .fetched
  else if s.isFetchingGetProfiles pid then .fetching
  else if pid ∈ s.erroredGetProfiles then .errored
  else .unfetched

/-- Position of a status along the lifecycle
`unfetched → fetching → \x7b fetched, errored \x7d`. -/
def statusRank : EntryStatus → Nat
  | .unfetched => 0
  | .fetching => 1
  | .fetched => 2
  | .errored => 2

/-- Bookkeeping invariant of reachable states: a key with a profiles request
in flight, or whose fetch has failed, has had its resolver started. -/
def StateInv (s : State) : Prop :=
  (∀ pid, s.isFetchingGetProfiles pid = true → pid ∈ s.startedGetProfiles) ∧
  (∀ pid, pid ∈ s.erroredGetProfiles → pid ∈ s.startedGetProfiles)

@[simp]
lemma upd_self {α : Type} (f : String → α) (k : String) (v : α) :
    upd f k v k = v := by
  simp [upd]

lemma upd_ne {α : Type} (f : String → α) {x k : String} (v : α) (h : x ≠ k) :
    upd f k v x = f x := by
  simp [upd, h]

@[simp]
lemma profileIDDefaultStep_profiles (s : State) (o : Option (List Profile)) :
    (profileIDDefaultStep s o).profiles = s.profiles := by
  cases o with
  | none => rfl
  | some ps =>
    simp only [profileIDDefaultStep]
    split
    · rfl
    · rfl

@[simp]
lemma profileIDDefaultStep_isFetchingGetProfiles (s : State)
    (o : Option (List Profile)) :
    (profileIDDefaultStep s o).isFetchingGetProfiles =
      s.isFetchingGetProfiles := by
  cases o with
  | none => rfl
  | some ps =>
    simp only [profileIDDefaultStep]
    split
    · rfl
    · rfl

@[simp]
lemma profileIDDefaultStep_erroredGetProfiles (s : State)
    (o : Option (List Profile)) :
    (profileIDDefaultStep s o).erroredGetProfiles = s.erroredGetProfiles := by
  cases o with
  | none => rfl
  | some ps =>
    simp only [profileIDDefaultStep]
    split
    · rfl
    · rfl

@[simp]
lemma profileIDDefaultStep_startedGetProfiles (s : State)
    (o : Option (List Profile)) :
    (profileIDDefaultStep s o).startedGetProfiles = s.startedGetProfiles := by
  cases o with
  | none => rfl
  | some ps =>
    simp only [profileIDDefaultStep]
    split
    · rfl
    · rfl

@[simp]
lemma profileIDDefaultStep_error (s : State) (o : Option (List Profile)) :
    (profileIDDefaultStep s o).error = s.error := by
  cases o with
  | none => rfl
  | some ps =>
    simp only [profileIDDefaultStep]
    split
    · rfl
    · rfl

/-- The `getProfiles` resolver never writes the profiles cache itself; it
only marks flags and (through `setProfileID`) the profile selection. -/
lemma resolveGetProfilesRun_profiles (pid : String) (s : State) :
    ((resolveGetProfilesRun pid s).1).profiles = s.profiles := by
  simp only [resolveGetProfilesRun]
  split
  · rfl
  · split
    · rfl
    · split
      · simp
      · rfl

/-- C3.  On a successful fetch for a key, the cached value returned by the
selector afterwards equals the HTTP response body exactly: the `getProfiles`
reducer stores the received profiles list unchanged under the requested
property ID, and this is what the selector returns once the pending fetch
settles successfully. -/
theorem success_fetch_stores_response_exactly
    (s : State) (ps : List Profile) (pid : String) :
    getProfiles (fetchGetProfiles_reducerCallback s ps pid) pid = some ps ∧
    getProfiles (finishGetProfilesPending pid (FetchResult.success ps) s) pid =
      some ps := by
  constructor
  · simp [getProfiles, fetchGetProfiles_reducerCallback]
  · simp [getProfiles, finishGetProfilesPending, fetchGetProfiles_reducerCallback]

/-- C10.  The `isDoingCreateProfile` selector returns `true` exactly when at
least one `createProfile` request is in flight, for any argument pair
whatsoever: it is a global flag, not specific to one property ID or profile
name. -/
theorem isDoingCreateProfile_global_iff (s : State) :
    isDoingCreateProfile s = true ↔
      ∃ kv, kv ∈ s.isFetchingCreateProfile ∧ kv.2 = true := by
  simp [isDoingCreateProfile, List.any_eq_true]

/-- Counterexample to C2 as stated: a read access with an invalid key does
not raise a validation error.  Running the `getProfiles` resolver on the
invalid property ID `"abc"` from the initial state completes normally: it
issues no network request, but it also records no error (the error selector
still returns `undefined`) — the resolver returns early silently instead of
throwing (source lines 118–120). -/
theorem invalid_read_no_error_cex :
    (resolveGetProfilesRun "abc" INITIAL_STATE).2 = 0 ∧
    getError (resolveGetProfilesRun "abc" INITIAL_STATE).1 = none ∧
    getProfiles (resolveGetProfilesRun "abc" INITIAL_STATE).1 "abc" = none := by
  decide

/-- C2 (amended).  `createProfile` throws synchronously, before any network
request is issued, when the property ID is not a valid property ID or the
profile name is not a valid profile name; a read access with an invalid key
issues no network request and leaves the store untouched, the resolver
returning early silently (it does not raise a validation error). -/
theorem validation_before_network (s : State) (pid name : String)
    (outcome : FetchResult Profile) :
    (isValidPropertyID pid = false →
      createProfile pid name outcome s =
        (.error "a valid property ID is required to create a profile.", 0)) ∧
    (isValidPropertyID pid = true → isValidProfileName name = false →
      createProfile pid name outcome s =
        (.error "a valid name is required to create a profile.", 0)) ∧
    (isValidPropertyID pid = false →
      (resolveGetProfilesRun pid s).2 = 0 ∧
      getError (resolveGetProfilesRun pid s).1 = getError s ∧
      getProfiles (resolveGetProfilesRun pid s).1 pid = getProfiles s pid) := by
  refine ⟨fun h => by simp [createProfile, h], fun h1 h2 => by simp [createProfile, h1, h2], fun h => ?_⟩
  refine ⟨?_, ?_, ?_⟩
  · simp only [resolveGetProfilesRun]
    split
    · rfl
    · simp [h]
  · simp only [resolveGetProfilesRun, getError]
    split
    · rfl
    · simp [h]
  · simp [getProfiles, resolveGetProfilesRun_profiles]

/-- Concrete instance of `validation_before_network`: with the invalid
property ID `"abc"`, `createProfile` throws its property-ID invariant with
zero requests issued, and the resolver issues zero requests. -/
theorem validation_before_network_witness :
    createProfile "abc" "View" (FetchResult.success ⟨"1", "View"⟩)
        INITIAL_STATE =
      (.error "a valid property ID is required to create a profile.", 0) ∧
    (resolveGetProfilesRun "abc" INITIAL_STATE).2 = 0 :=
  ⟨(validation_before_network INITIAL_STATE "abc" "View"
      (FetchResult.success ⟨"1", "View"⟩)).1 (by decide),
   ((validation_before_network INITIAL_STATE "abc" "View"
      (FetchResult.success ⟨"1", "View"⟩)).2.2 (by decide)).1⟩

/-- C6.  A successful `createProfile` call passes validation, resolves to
the fetch store's result, and the new profile is appended to the end of the
cached profiles list under the parent property ID (an empty list if none was
cached), while the cached list of every other property ID is unchanged. -/
theorem createProfile_success_appends (s : State) (pid name : String)
    (p : Profile) (k : String) (hpid : isValidPropertyID pid = true)
    (hname : isValidProfileName name = true) :
    (createProfile pid name (FetchResult.success p) s).1 =
      Except.ok (fetchCreateProfile_finish pid name (FetchResult.success p)
        (fetchCreateProfile_start pid name s)) ∧
    getProfiles (fetchCreateProfile_finish pid name (FetchResult.success p)
        (fetchCreateProfile_start pid name s)).1 pid =
      some ((getProfiles s pid).getD [] ++ [p]) ∧
    (fetchCreateProfile_finish pid name (FetchResult.success p)
        (fetchCreateProfile_start pid name s)).2 =
      { response := some p, error := none } ∧
    (k ≠ pid →
      getProfiles (fetchCreateProfile_finish pid name (FetchResult.success p)
        (fetchCreateProfile_start pid name s)).1 k = getProfiles s k) := by
  refine ⟨by simp [createProfile, hpid, hname], ?_, rfl, fun hk => ?_⟩
  · simp [getProfiles, fetchCreateProfile_finish, fetchCreateProfile_start,
      fetchCreateProfile_reducerCallback]
  · simp only [getProfiles, fetchCreateProfile_finish,
      fetchCreateProfile_start, fetchCreateProfile_reducerCallback]
    exact upd_ne _ _ hk

/-- Concrete instance of `createProfile_success_appends`: creating a profile
under `"UA-1-1"` from the initial state caches exactly `[ p ]` under
`"UA-1-1"` and leaves `"UA-2-2"` uncached. -/
theorem createProfile_success_appends_witness :
    (createProfile "UA-1-1" "View" (FetchResult.success ⟨"101", "View"⟩)
        INITIAL_STATE).1 =
      Except.ok (fetchCreateProfile_finish "UA-1-1" "View"
        (FetchResult.success ⟨"101", "View"⟩)
        (fetchCreateProfile_start "UA-1-1" "View" INITIAL_STATE)) ∧
    getProfiles (fetchCreateProfile_finish "UA-1-1" "View"
        (FetchResult.success ⟨"101", "View"⟩)
        (fetchCreateProfile_start "UA-1-1" "View" INITIAL_STATE)).1 "UA-1-1" =
      some ((getProfiles INITIAL_STATE "UA-1-1").getD [] ++ [⟨"101", "View"⟩]) ∧
    getProfiles (fetchCreateProfile_finish "UA-1-1" "View"
        (FetchResult.success ⟨"101", "View"⟩)
        (fetchCreateProfile_start "UA-1-1" "View" INITIAL_STATE)).1 "UA-2-2" =
      getProfiles INITIAL_STATE "UA-2-2" :=
  ⟨(createProfile_success_appends INITIAL_STATE "UA-1-1" "View" ⟨"101", "View"⟩
      "UA-2-2" (by decide) (by decide)).1,
   (createProfile_success_appends INITIAL_STATE "UA-1-1" "View" ⟨"101", "View"⟩
      "UA-2-2" (by decide) (by decide)).2.1,
   (createProfile_success_appends INITIAL_STATE "UA-1-1" "View" ⟨"101", "View"⟩
      "UA-2-2" (by decide) (by decide)).2.2.2 (by decide)⟩

/-- C7.  A `createProfile` call that passes validation but whose request
fails returns the error in its `\x7b response, error \x7d` result, and the
cached profiles mapping is left unchanged at every key: no cache mutation on
error. -/
theorem createProfile_failure_preserves_cache (s : State) (pid name : String)
    (err : ErrorObject) (k : String) (hpid : isValidPropertyID pid = true)
    (hname : isValidProfileName name = true) :
    (createProfile pid name (FetchResult.failure err) s).1 =
      Except.ok (fetchCreateProfile_finish pid name (FetchResult.failure err)
        (fetchCreateProfile_start pid name s)) ∧
    (fetchCreateProfile_finish pid name (FetchResult.failure err)
        (fetchCreateProfile_start pid name s)).2 =
      { response := none, error := some err } ∧
    getProfiles (fetchCreateProfile_finish pid name (FetchResult.failure err)
        (fetchCreateProfile_start pid name s)).1 k = getProfiles s k := by
  refine ⟨by simp [createProfile, hpid, hname], rfl, ?_⟩
  simp [getProfiles, fetchCreateProfile_finish, fetchCreateProfile_start]

/-- Concrete instance of `createProfile_failure_preserves_cache`: a failed
creation under `"UA-1-1"` returns the 500 payload and leaves `"UA-1-1"`
uncached. -/
theorem createProfile_failure_preserves_cache_witness :
    (createProfile "UA-1-1" "View"
        (FetchResult.failure ⟨"internal_server_error", "Internal server error", 500⟩)
        INITIAL_STATE).1 =
      Except.ok (fetchCreateProfile_finish "UA-1-1" "View"
        (FetchResult.failure ⟨"internal_server_error", "Internal server error", 500⟩)
        (fetchCreateProfile_start "UA-1-1" "View" INITIAL_STATE)) ∧
    (fetchCreateProfile_finish "UA-1-1" "View"
        (FetchResult.failure ⟨"internal_server_error", "Internal server error", 500⟩)
        (fetchCreateProfile_start "UA-1-1" "View" INITIAL_STATE)).2 =
      { response := none,
        error := some ⟨"internal_server_error", "Internal server error", 500⟩ } ∧
    getProfiles (fetchCreateProfile_finish "UA-1-1" "View"
        (FetchResult.failure ⟨"internal_server_error", "Internal server error", 500⟩)
        (fetchCreateProfile_start "UA-1-1" "View" INITIAL_STATE)).1 "UA-1-1" =
      getProfiles INITIAL_STATE "UA-1-1" :=
  createProfile_failure_preserves_cache INITIAL_STATE "UA-1-1" "View"
    ⟨"internal_server_error", "Internal server error", 500⟩ "UA-1-1"
    (by decide) (by decide)

/-- C9.  When the `getProfiles` resolver has a profiles list available —
either because the pending fetch settled successfully or because the list
was already cached — and no profile ID is currently selected, it selects the
ID of the first profile in the list, or the `PROFILE_CREATE` sentinel when
the list is empty; a profile ID that was already selected is left
unchanged. -/
theorem resolver_defaults_profileID (s : State) (pid : String)
    (ps : List Profile) :
    (truthyOpt s.profileID = false →
      (finishGetProfilesPending pid (FetchResult.success ps) s).profileID =
        some (headProfileID ps)) ∧
    (truthyOpt s.profileID = true →
      (finishGetProfilesPending pid (FetchResult.success ps) s).profileID =
        s.profileID) ∧
    (pid ∉ s.startedGetProfiles → isValidPropertyID pid = true →
      getProfiles s pid = some ps →
      (truthyOpt s.profileID = false →
        ((resolveGetProfilesRun pid s).1).profileID =
          some (headProfileID ps)) ∧
      (truthyOpt s.profileID = true →
        ((resolveGetProfilesRun pid s).1).profileID = s.profileID)) := by
  refine ⟨fun h => ?_, fun h => ?_, fun h1 h2 h3 => ⟨fun h => ?_, fun h => ?_⟩⟩
  · simp [finishGetProfilesPending, fetchGetProfiles_reducerCallback,
      profileIDDefaultStep, setProfileID, h]
  · simp [finishGetProfilesPending, fetchGetProfiles_reducerCallback,
      profileIDDefaultStep, h]
  · simp only [resolveGetProfilesRun]
    rw [if_neg h1]
    simp only [h2, Bool.true_eq_false, if_false]
    have h3' : getProfiles
        { s with startedGetProfiles := pid :: s.startedGetProfiles } pid =
        some ps := h3
    rw [h3']
    simp [profileIDDefaultStep, setProfileID, h]
  · simp only [resolveGetProfilesRun]
    rw [if_neg h1]
    simp only [h2, Bool.true_eq_false, if_false]
    have h3' : getProfiles
        { s with startedGetProfiles := pid :: s.startedGetProfiles } pid =
        some ps := h3
    rw [h3']
    simp [profileIDDefaultStep, h]

/-- Concrete instance of `resolver_defaults_profileID`: from a state with a
pending fetch for `"UA-12-34"` and no selected profile ID, a successful
settlement with a non-empty list selects the first profile's ID, and with an
empty list selects the `PROFILE_CREATE` sentinel. -/
theorem resolver_defaults_profileID_witness :
    (finishGetProfilesPending "UA-12-34"
        (FetchResult.success [⟨"77", "v"⟩, ⟨"88", "w"⟩])
        (resolveGetProfilesRun "UA-12-34" INITIAL_STATE).1).profileID =
      some (headProfileID [⟨"77", "v"⟩, ⟨"88", "w"⟩]) ∧
    (finishGetProfilesPending "UA-12-34" (FetchResult.success [])
        (resolveGetProfilesRun "UA-12-34" INITIAL_STATE).1).profileID =
      some (headProfileID []) :=
  ⟨(resolver_defaults_profileID (resolveGetProfilesRun "UA-12-34"
      INITIAL_STATE).1 "UA-12-34" [⟨"77", "v"⟩, ⟨"88", "w"⟩]).1 (by decide),
   (resolver_defaults_profileID (resolveGetProfilesRun "UA-12-34"
      INITIAL_STATE).1 "UA-12-34" []).1 (by decide)⟩

/-- C4.  A read access whose fetch fails: from any state where the key is
unfetched and its resolver has not yet run, running the resolver and letting
the request settle with an error payload issues exactly one network request,
leaves the cached value for that key `undefined`, and makes the error
selector return the failure payload. -/
theorem failed_fetch_keeps_undefined_and_stores_error (s : State)
    (pid : String) (err : ErrorObject) (hpid : isValidPropertyID pid = true)
    (hstart : pid ∉ s.startedGetProfiles) (hmiss : getProfiles s pid = none) :
    traceGetProfilesCalls pid
      [Op.resolveGetProfilesOp pid, Op.settleGetProfilesOp pid (FetchResult.failure err)]
      s = 1 ∧
    getProfiles (runTrace
      [Op.resolveGetProfilesOp pid, Op.settleGetProfilesOp pid (FetchResult.failure err)]
      s) pid = none ∧
    getError (runTrace
      [Op.resolveGetProfilesOp pid, Op.settleGetProfilesOp pid (FetchResult.failure err)]
      s) = some err := by
  have hmiss' : getProfiles
      { s with startedGetProfiles := pid :: s.startedGetProfiles } pid = none :=
    hmiss
  have hrun : resolveGetProfilesRun pid s =
      ({ { s with startedGetProfiles := pid :: s.startedGetProfiles } with
          isFetchingGetProfiles :=
            upd ({ s with startedGetProfiles :=
              pid :: s.startedGetProfiles } : State).isFetchingGetProfiles
              pid true }, 1) := by
    simp only [resolveGetProfilesRun]
    rw [if_neg hstart]
    simp only [hpid, Bool.true_eq_false, if_false]
    rw [hmiss']
  refine ⟨?_, ?_, ?_⟩
  · simp [traceGetProfilesCalls, opGetProfilesCalls, hrun]
  · simp only [runTrace, applyOp, hrun, finishGetProfilesPending, getProfiles,
      profileIDDefaultStep, upd_self, if_true]
    simp [getProfiles] at hmiss
    simp [hmiss]
  · simp [runTrace, applyOp, hrun, finishGetProfilesPending, getError,
      profileIDDefaultStep]

/-- Concrete instance of `failed_fetch_keeps_undefined_and_stores_error`:
the mocked-500 scenario from the initial state for `"UA-12-34"`. -/
theorem failed_fetch_keeps_undefined_and_stores_error_witness :
    traceGetProfilesCalls "UA-12-34"
      [Op.resolveGetProfilesOp "UA-12-34", Op.settleGetProfilesOp "UA-12-34"
        (FetchResult.failure ⟨"internal_server_error", "Internal server error", 500⟩)]
      INITIAL_STATE = 1 ∧
    getProfiles (runTrace
      [Op.resolveGetProfilesOp "UA-12-34", Op.settleGetProfilesOp "UA-12-34"
        (FetchResult.failure ⟨"internal_server_error", "Internal server error", 500⟩)]
      INITIAL_STATE) "UA-12-34" = none ∧
    getError (runTrace
      [Op.resolveGetProfilesOp "UA-12-34", Op.settleGetProfilesOp "UA-12-34"
        (FetchResult.failure ⟨"internal_server_error", "Internal server error", 500⟩)]
      INITIAL_STATE) =
      some ⟨"internal_server_error", "Internal server error", 500⟩ :=
  failed_fetch_keeps_undefined_and_stores_error INITIAL_STATE "UA-12-34"
    ⟨"internal_server_error", "Internal server error", 500⟩
    (by decide) (by decide) (by decide)

/-- The resolver either leaves the resolution cache alone (already started)
or pushes its own key onto it. -/
lemma resolveGetProfilesRun_started (pid : String) (s : State) :
    ((resolveGetProfilesRun pid s).1).startedGetProfiles =
        s.startedGetProfiles ∨
    ((resolveGetProfilesRun pid s).1).startedGetProfiles =
        pid :: s.startedGetProfiles := by
  simp only [resolveGetProfilesRun]
  split
  · exact Or.inl rfl
  · split
    · exact Or.inr rfl
    · split
      · exact Or.inr (by simp)
      · exact Or.inr rfl

/-- After the resolver has run for a key, that key is in the resolution
cache. -/
lemma resolveGetProfilesRun_marks (pid : String) (s : State) :
    pid ∈ ((resolveGetProfilesRun pid s).1).startedGetProfiles := by
  simp only [resolveGetProfilesRun]
  split
  · next h => exact h
  · split
    · exact List.mem_cons_self _ _
    · split
      · simp
      · exact List.mem_cons_self _ _

/-- A key already in the resolution cache makes the resolver a no-op with no
network request. -/
lemma resolveGetProfilesRun_calls_of_started {pid : String} {s : State}
    (h : pid ∈ s.startedGetProfiles) : (resolveGetProfilesRun pid s).2 = 0 := by
  simp only [resolveGetProfilesRun]
  rw [if_pos h]

/-- One resolver run issues at most one network request. -/
lemma resolveGetProfilesRun_calls_le_one (pid : String) (s : State) :
    (resolveGetProfilesRun pid s).2 ≤ 1 := by
  simp only [resolveGetProfilesRun]
  split
  · simp
  · split
    · simp
    · split
      · simp
      · simp

/-- Settling a pending profiles request does not change the resolution
cache. -/
lemma finishGetProfilesPending_started (pid : String)
    (out : FetchResult (List Profile)) (s : State) :
    (finishGetProfilesPending pid out s).startedGetProfiles =
      s.startedGetProfiles := by
  cases out with
  | success ps => simp [finishGetProfilesPending, fetchGetProfiles_reducerCallback]
  | failure e => simp [finishGetProfilesPending]

/-- No event removes a key from the resolution cache. -/
lemma applyOp_started_mono (op : Op) (s : State) {q : String}
    (h : q ∈ s.startedGetProfiles) :
    q ∈ (applyOp op s).startedGetProfiles := by
  cases op with
  | resolveGetProfilesOp pid =>
    simp only [applyOp]
    rcases resolveGetProfilesRun_started pid s with heq | heq
    · rw [heq]; exact h
    · rw [heq]; exact List.mem_cons_of_mem _ h
  | settleGetProfilesOp pid out =>
    simp only [applyOp]
    split
    · rw [finishGetProfilesPending_started]; exact h
    · exact h
  | createProfileStartOp pid name =>
    simp only [applyOp]
    split
    · exact h
    · exact h
  | settleCreateProfileOp pid name out =>
    simp only [applyOp]
    split
    · cases out with
      | success p => exact h
      | failure e => exact h
    · exact h
  | setProfileIDOp id => exact h

/-- A key already in the resolution cache gets no further profiles requests,
whatever events follow. -/
lemma traceGetProfilesCalls_zero_of_started :
    ∀ (ops : List Op) (s : State) (pid : String),
    pid ∈ s.startedGetProfiles → traceGetProfilesCalls pid ops s = 0 := by
  intro ops
  induction ops with
  | nil => intro s pid _; rfl
  | cons op rest ih =>
    intro s pid h
    have hrest : traceGetProfilesCalls pid rest (applyOp op s) = 0 :=
      ih _ _ (applyOp_started_mono op s h)
    cases op with
    | resolveGetProfilesOp pid' =>
      by_cases hpp : pid' = pid
      · subst hpp
        simp [traceGetProfilesCalls, opGetProfilesCalls,
          resolveGetProfilesRun_calls_of_started h, hrest]
      · simp [traceGetProfilesCalls, opGetProfilesCalls, hpp, hrest]
    | settleGetProfilesOp pid' out =>
      simp [traceGetProfilesCalls, opGetProfilesCalls, hrest]
    | createProfileStartOp pid' name =>
      simp [traceGetProfilesCalls, opGetProfilesCalls, hrest]
    | settleCreateProfileOp pid' name out =>
      simp [traceGetProfilesCalls, opGetProfilesCalls, hrest]
    | setProfileIDOp id =>
      simp [traceGetProfilesCalls, opGetProfilesCalls, hrest]

/-- Along any event sequence from any state, at most one profiles request is
issued per key. -/
lemma traceGetProfilesCalls_le_one :
    ∀ (ops : List Op) (s : State) (pid : String),
    traceGetProfilesCalls pid ops s ≤ 1 := by
  intro ops
  induction ops with
  | nil => intro s pid; simp [traceGetProfilesCalls]
  | cons op rest ih =>
    intro s pid
    cases op with
    | resolveGetProfilesOp pid' =>
      by_cases hpp : pid' = pid
      · subst hpp
        have hrest : traceGetProfilesCalls pid' rest
            (applyOp (Op.resolveGetProfilesOp pid') s) = 0 :=
          traceGetProfilesCalls_zero_of_started _ _ _
            (resolveGetProfilesRun_marks pid' s)
        simp only [traceGetProfilesCalls, opGetProfilesCalls, if_pos rfl, hrest,
          Nat.add_zero]
        exact resolveGetProfilesRun_calls_le_one pid' s
      · simpa [traceGetProfilesCalls, opGetProfilesCalls, hpp] using
          ih (applyOp (Op.resolveGetProfilesOp pid') s) pid
    | settleGetProfilesOp pid' out =>
      simpa [traceGetProfilesCalls, opGetProfilesCalls] using
        ih (applyOp (Op.settleGetProfilesOp pid' out) s) pid
    | createProfileStartOp pid' name =>
      simpa [traceGetProfilesCalls, opGetProfilesCalls] using
        ih (applyOp (Op.createProfileStartOp pid' name) s) pid
    | settleCreateProfileOp pid' name out =>
      simpa [traceGetProfilesCalls, opGetProfilesCalls] using
        ih (applyOp (Op.settleCreateProfileOp pid' name out) s) pid
    | setProfileIDOp id =>
      simpa [traceGetProfilesCalls, opGetProfilesCalls] using
        ih (applyOp (Op.setProfileIDOp id) s) pid

/-- C5.  Deduplication: along any event sequence, the profiles endpoint is
called at most once per key; and one resolver run issues a request exactly
when the key's resolver has not started yet (covering both a pending fetch
and a completed one), the key is valid, and the selector currently returns
`undefined` for it. -/
theorem getProfiles_fetched_at_most_once :
    (∀ (ops : List Op) (s : State) (pid : String),
      traceGetProfilesCalls pid ops s ≤ 1) ∧
    (∀ (s : State) (pid : String),
      (resolveGetProfilesRun pid s).2 =
        if pid ∈ s.startedGetProfiles then 0
        else if isValidPropertyID pid = false then 0
        else if (getProfiles s pid).isSome then 0 else 1) := by
  refine ⟨traceGetProfilesCalls_le_one, fun s pid => ?_⟩
  simp only [resolveGetProfilesRun]
  split
  · rfl
  · split
    · rfl
    · rcases hm : getProfiles s pid with _ | ps
      · simp only [getProfiles] at hm
        simp [getProfiles, hm]
      · simp only [getProfiles] at hm
        simp [getProfiles, hm]

/-- An event that does not target a key leaves that key's cached profiles
untouched and issues no profiles request for it. -/
lemma untouched_op_profiles (pid : String) (op : Op) (s : State)
    (h : opTouches pid op = false) :
    (applyOp op s).profiles pid = s.profiles pid ∧
    opGetProfilesCalls pid op s = 0 := by
  cases op with
  | resolveGetProfilesOp pid' =>
    have hne : pid' ≠ pid := by simpa [opTouches] using h
    constructor
    · simp only [applyOp]
      rw [resolveGetProfilesRun_profiles]
    · simp [opGetProfilesCalls, hne]
  | settleGetProfilesOp pid' out =>
    have hne : pid' ≠ pid := by simpa [opTouches] using h
    refine ⟨?_, rfl⟩
    simp only [applyOp]
    split
    · cases out with
      | success ps =>
        simp only [finishGetProfilesPending, fetchGetProfiles_reducerCallback,
          profileIDDefaultStep_profiles]
        exact upd_ne _ _ (fun hx => hne hx.symm)
      | failure e =>
        simp [finishGetProfilesPending]
    · rfl
  | createProfileStartOp pid' name =>
    refine ⟨?_, rfl⟩
    simp only [applyOp]
    split
    · rfl
    · rfl
  | settleCreateProfileOp pid' name out =>
    have hne : pid' ≠ pid := by simpa [opTouches] using h
    refine ⟨?_, rfl⟩
    simp only [applyOp]
    split
    · cases out with
      | success p =>
        simp only [fetchCreateProfile_finish, fetchCreateProfile_reducerCallback]
        exact upd_ne _ _ (fun hx => hne hx.symm)
      | failure e => rfl
    · rfl
  | setProfileIDOp id => exact ⟨rfl, rfl⟩

/-- Events none of which target a key leave that key's cached profiles
untouched and issue no profiles request for it. -/
lemma untouched_trace_profiles (pid : String) :
    ∀ (ops : List Op) (s : State),
    ops.all (fun op => !opTouches pid op) = true →
    (runTrace ops s).profiles pid = s.profiles pid ∧
    traceGetProfilesCalls pid ops s = 0 := by
  intro ops
  induction ops with
  | nil => intro s _; exact ⟨rfl, rfl⟩
  | cons op rest ih =>
    intro s hall
    simp only [List.all_cons, Bool.and_eq_true, Bool.not_eq_true'] at hall
    obtain ⟨hop, hrest⟩ := hall
    have h1 := untouched_op_profiles pid op s hop
    have h2 := ih (applyOp op s) (by simpa using hrest)
    refine ⟨?_, ?_⟩
    · simp only [runTrace]
      rw [h2.1, h1.1]
    · simp only [traceGetProfilesCalls]
      rw [h1.2, h2.2]

/-- Counterexample to C1 as stated: a key that has never been read does not
always read back as `undefined`.  From the initial state, a successful
`createProfile` for `"UA-1-1"` — with no read access (no `getProfiles`
resolver run) anywhere in the sequence — leaves the selector returning the
created profiles list for `"UA-1-1"`, not `undefined` (the create reducer
writes the profiles bucket of a never-read key); no profiles GET request is
issued for it. -/
theorem created_key_not_undefined_cex :
    ([Op.createProfileStartOp "UA-1-1" "View",
      Op.settleCreateProfileOp "UA-1-1" "View"
        (FetchResult.success ⟨"101", "View"⟩)].all
      (fun op => !isResolveGetProfilesOp op)) = true ∧
    getProfiles (runTrace
      [Op.createProfileStartOp "UA-1-1" "View",
       Op.settleCreateProfileOp "UA-1-1" "View"
         (FetchResult.success ⟨"101", "View"⟩)]
      INITIAL_STATE) "UA-1-1" = some [⟨"101", "View"⟩] ∧
    traceGetProfilesCalls "UA-1-1"
      [Op.createProfileStartOp "UA-1-1" "View",
       Op.settleCreateProfileOp "UA-1-1" "View"
         (FetchResult.success ⟨"101", "View"⟩)]
      INITIAL_STATE = 0 := by
  decide

/-- C1 (amended).  The initial store state maps no property ID to a profiles
list; and for every key that no event targets — never read, never the target
of a `createProfile` — the `getProfiles` selector still returns `undefined`
after any event sequence from the initial state, and no profiles GET request
is issued for that key.  (A key that is never read but is the target of a
successful `createProfile` instead reads back as the created profiles list,
per `created_key_not_undefined_cex`.) -/
theorem untouched_key_stays_unfetched :
    (∀ pid, getProfiles INITIAL_STATE pid = none) ∧
    (∀ (ops : List Op) (pid : String),
      ops.all (fun op => !opTouches pid op) = true →
      getProfiles (runTrace ops INITIAL_STATE) pid = none ∧
      traceGetProfilesCalls pid ops INITIAL_STATE = 0) := by
  refine ⟨fun pid => rfl, fun ops pid hall => ?_⟩
  have h := untouched_trace_profiles pid ops INITIAL_STATE hall
  exact ⟨h.1, h.2⟩

/-- Concrete instance of `untouched_key_stays_unfetched`: after reading
`"UA-9-9"` and creating a profile under `"UA-5-5"`, the untouched key
`"UA-1-1"` still reads back `undefined` with zero profiles requests. -/
theorem untouched_key_stays_unfetched_witness :
    getProfiles (runTrace
      [Op.resolveGetProfilesOp "UA-9-9",
       Op.createProfileStartOp "UA-5-5" "View"]
      INITIAL_STATE) "UA-1-1" = none ∧
    traceGetProfilesCalls "UA-1-1"
      [Op.resolveGetProfilesOp "UA-9-9",
       Op.createProfileStartOp "UA-5-5" "View"]
      INITIAL_STATE = 0 :=
  untouched_key_stays_unfetched.2
    [Op.resolveGetProfilesOp "UA-9-9", Op.createProfileStartOp "UA-5-5" "View"]
    "UA-1-1" (by decide)

/-- Every status sits at rank at most 2 in the lifecycle order. -/
lemma statusRank_le_two (st : EntryStatus) : statusRank st ≤ 2 := by
  cases st <;> simp [statusRank]

/-- The status of a key depends only on its cached value, its fetching flag
and its membership in the errored history. -/
lemma entryStatus_congr {s t : State} (pid : String)
    (h1 : t.profiles pid = s.profiles pid)
    (h2 : t.isFetchingGetProfiles pid = s.isFetchingGetProfiles pid)
    (h3 : pid ∈ t.erroredGetProfiles ↔ pid ∈ s.erroredGetProfiles) :
    entryStatus t pid = entryStatus s pid := by
  by_cases hp : (s.profiles pid).isSome
  · simp [entryStatus, h1, hp]
  · by_cases hfq : s.isFetchingGetProfiles pid
    · simp [entryStatus, h1, h2, hp, hfq]
    · by_cases herr : pid ∈ s.erroredGetProfiles
      · simp [entryStatus, h1, h2, hp, hfq, herr, h3.mpr herr]
      · have het : pid ∉ t.erroredGetProfiles := fun hx => herr (h3.mp hx)
        simp [entryStatus, h1, h2, hp, hfq, herr, het]

/-- Full case description of one resolver run: either the key was already in
the resolution cache and nothing happens, or the key is pushed onto the
cache and the rest of the state is unchanged except that, when the key's
value is missing, its fetching flag is raised. -/
lemma resolveGetProfilesRun_cases (pid : String) (s : State) :
    (pid ∈ s.startedGetProfiles ∧ resolveGetProfilesRun pid s = (s, 0)) ∨
    (pid ∉ s.startedGetProfiles ∧
      ((resolveGetProfilesRun pid s).1).profiles = s.profiles ∧
      ((resolveGetProfilesRun pid s).1).startedGetProfiles =
        pid :: s.startedGetProfiles ∧
      ((resolveGetProfilesRun pid s).1).erroredGetProfiles =
        s.erroredGetProfiles ∧
      (((resolveGetProfilesRun pid s).1).isFetchingGetProfiles =
          s.isFetchingGetProfiles ∨
        (getProfiles s pid = none ∧
          ((resolveGetProfilesRun pid s).1).isFetchingGetProfiles =
            upd s.isFetchingGetProfiles pid true))) := by
  by_cases h : pid ∈ s.startedGetProfiles
  · left
    refine ⟨h, ?_⟩
    simp only [resolveGetProfilesRun]
    rw [if_pos h]
  · right
    refine ⟨h, ?_⟩
    simp only [resolveGetProfilesRun]
    rw [if_neg h]
    by_cases hv : isValidPropertyID pid = false
    · rw [if_pos hv]
      exact ⟨rfl, rfl, rfl, Or.inl rfl⟩
    · rw [if_neg hv]
      rcases hm : getProfiles s pid with _ | ps
      · have hm' : getProfiles
            { s with startedGetProfiles := pid :: s.startedGetProfiles } pid =
            none := hm
        rw [hm']
        refine ⟨rfl, rfl, rfl, Or.inr ⟨?_, rfl⟩⟩
        rfl
      · have hm' : getProfiles
            { s with startedGetProfiles := pid :: s.startedGetProfiles } pid =
            some ps := hm
        rw [hm']
        refine ⟨?_, ?_, ?_, Or.inl ?_⟩
        · rw [profileIDDefaultStep_profiles]
        · rw [profileIDDefaultStep_startedGetProfiles]
        · rw [profileIDDefaultStep_erroredGetProfiles]
        · rw [profileIDDefaultStep_isFetchingGetProfiles]

/-- Every event preserves the bookkeeping invariant. -/
lemma inv_step (op : Op) {s : State} (hinv : StateInv s) :
    StateInv (applyOp op s) := by
  obtain ⟨hf, he⟩ := hinv
  cases op with
  | resolveGetProfilesOp pid' =>
    rcases resolveGetProfilesRun_cases pid' s with ⟨hmem, heq⟩ |
      ⟨hmem, hp, hs, herr, hfetch⟩
    · simp only [applyOp]
      rw [heq]
      exact ⟨hf, he⟩
    · simp only [applyOp]
      constructor
      · intro q hq
        rw [hs]
        rcases hfetch with hF | ⟨hm, hF⟩
        · rw [hF] at hq
          exact List.mem_cons_of_mem _ (hf q hq)
        · rw [hF] at hq
          by_cases hq' : q = pid'
          · subst hq'
            exact List.mem_cons_self _ _
          · rw [upd_ne _ _ hq'] at hq
            exact List.mem_cons_of_mem _ (hf q hq)
      · intro q hq
        rw [herr] at hq
        rw [hs]
        exact List.mem_cons_of_mem _ (he q hq)
  | settleGetProfilesOp pid' out =>
    simp only [applyOp]
    split
    · next hg =>
      cases out with
      | success ps =>
        simp only [finishGetProfilesPending]
        constructor
        · intro q hq
          simp only [profileIDDefaultStep_isFetchingGetProfiles] at hq
          have hq2 : upd s.isFetchingGetProfiles pid' false q = true := hq
          rw [profileIDDefaultStep_startedGetProfiles]
          by_cases hq' : q = pid'
          · subst hq'
            rw [upd_self] at hq2
            exact absurd hq2 (by simp)
          · rw [upd_ne _ _ hq'] at hq2
            exact hf q hq2
        · intro q hq
          simp only [profileIDDefaultStep_erroredGetProfiles] at hq
          have hq2 : q ∈ s.erroredGetProfiles := hq
          rw [profileIDDefaultStep_startedGetProfiles]
          exact he q hq2
      | failure e =>
        simp only [finishGetProfilesPending]
        constructor
        · intro q hq
          simp only [profileIDDefaultStep_isFetchingGetProfiles] at hq
          have hq2 : upd s.isFetchingGetProfiles pid' false q = true := hq
          rw [profileIDDefaultStep_startedGetProfiles]
          by_cases hq' : q = pid'
          · subst hq'
            rw [upd_self] at hq2
            exact absurd hq2 (by simp)
          · rw [upd_ne _ _ hq'] at hq2
            exact hf q hq2
        · intro q hq
          simp only [profileIDDefaultStep_erroredGetProfiles] at hq
          have hq2 : q ∈ pid' :: s.erroredGetProfiles := hq
          rw [profileIDDefaultStep_startedGetProfiles]
          rcases List.mem_cons.mp hq2 with hq' | hq'
          · subst hq'
            exact hf q hg
          · exact he q hq'
    · exact ⟨hf, he⟩
  | createProfileStartOp pid' name =>
    simp only [applyOp]
    split
    · exact ⟨hf, he⟩
    · exact ⟨hf, he⟩
  | settleCreateProfileOp pid' name out =>
    simp only [applyOp]
    split
    · cases out with
      | success p => exact ⟨hf, he⟩
      | failure e => exact ⟨hf, he⟩
    · exact ⟨hf, he⟩
  | setProfileIDOp id => exact ⟨hf, he⟩

/-- Every reachable state satisfies the bookkeeping invariant. -/
lemma reachable_inv {s : State} (h : Reachable s) : StateInv s := by
  induction h with
  | init =>
    constructor
    · intro q hq
      simp [INITIAL_STATE] at hq
    · intro q hq
      simp [INITIAL_STATE] at hq
  | step op hprev ih => exact inv_step op ih

/-- From any state satisfying the invariant, every event moves every key's
status weakly forward in the lifecycle order. -/
lemma applyOp_rank_mono {s : State} (hinv : StateInv s) (op : Op)
    (pid : String) :
    statusRank (entryStatus s pid) ≤
      statusRank (entryStatus (applyOp op s) pid) := by
  obtain ⟨hf, he⟩ := hinv
  cases op with
  | resolveGetProfilesOp pid' =>
    rcases resolveGetProfilesRun_cases pid' s with ⟨hmem, heq⟩ |
      ⟨hmem, hp, hs, herr, hfetch⟩
    · simp only [applyOp]
      rw [heq]
    · simp only [applyOp]
      rcases hfetch with hF | ⟨hm, hF⟩
      · have hcong : entryStatus ((resolveGetProfilesRun pid' s).1) pid =
            entryStatus s pid := by
          apply entryStatus_congr
          · rw [hp]
          · rw [hF]
          · rw [herr]
        exact le_of_eq (congrArg statusRank hcong).symm
      · by_cases hpp : pid = pid'
        · subst hpp
          have hnf : s.isFetchingGetProfiles pid = false := by
            cases hxx : s.isFetchingGetProfiles pid
            · rfl
            · exact absurd (hf pid hxx) hmem
          have hne : pid ∉ s.erroredGetProfiles := fun hx => hmem (he pid hx)
          have hmnone : s.profiles pid = none := by
            simpa [getProfiles] using hm
          have h1 : entryStatus s pid = EntryStatus.unfetched := by
            simp [entryStatus, hmnone, hnf, hne]
          have h2 : entryStatus ((resolveGetProfilesRun pid s).1) pid =
              EntryStatus.fetching := by
            have hpn : ((resolveGetProfilesRun pid s).1).profiles pid = none := by
              rw [hp]; exact hmnone
            simp [entryStatus, hpn, hF]
          rw [h1, h2]
          decide
        · have hcong : entryStatus ((resolveGetProfilesRun pid' s).1) pid =
              entryStatus s pid := by
            apply entryStatus_congr
            · rw [hp]
            · rw [hF]; exact upd_ne _ _ hpp
            · rw [herr]
          exact le_of_eq (congrArg statusRank hcong).symm
  | settleGetProfilesOp pid' out =>
    simp only [applyOp]
    split
    · next hg =>
      cases out with
      | success ps =>
        by_cases hpp : pid = pid'
        · subst hpp
          have hps : (finishGetProfilesPending pid (FetchResult.success ps)
              s).profiles pid = some ps := by
            simp [finishGetProfilesPending, fetchGetProfiles_reducerCallback]
          have h2 : entryStatus (finishGetProfilesPending pid
              (FetchResult.success ps) s) pid = EntryStatus.fetched := by
            simp [entryStatus, hps]
          rw [h2]
          exact statusRank_le_two _
        · have hcong : entryStatus (finishGetProfilesPending pid'
              (FetchResult.success ps) s) pid = entryStatus s pid := by
            apply entryStatus_congr
            · simp only [finishGetProfilesPending,
                fetchGetProfiles_reducerCallback, profileIDDefaultStep_profiles]
              exact upd_ne _ _ hpp
            · simp only [finishGetProfilesPending,
                profileIDDefaultStep_isFetchingGetProfiles]
              exact upd_ne _ _ hpp
            · simp only [finishGetProfilesPending,
                profileIDDefaultStep_erroredGetProfiles]
              exact Iff.rfl
          exact le_of_eq (congrArg statusRank hcong).symm
      | failure e =>
        by_cases hpp : pid = pid'
        · subst hpp
          have h2 : statusRank (entryStatus (finishGetProfilesPending pid
              (FetchResult.failure e) s) pid) = 2 := by
            have ht1 : (finishGetProfilesPending pid (FetchResult.failure e)
                s).profiles pid = s.profiles pid := by
              simp [finishGetProfilesPending]
            have ht2 : (finishGetProfilesPending pid (FetchResult.failure e)
                s).isFetchingGetProfiles pid = false := by
              simp [finishGetProfilesPending]
            have ht3 : pid ∈ (finishGetProfilesPending pid
                (FetchResult.failure e) s).erroredGetProfiles := by
              simp [finishGetProfilesPending]
            by_cases hp : (s.profiles pid).isSome
            · simp [entryStatus, ht1, hp, statusRank]
            · simp [entryStatus, ht1, hp, ht2, ht3, statusRank]
          rw [h2]
          exact statusRank_le_two _
        · have hcong : entryStatus (finishGetProfilesPending pid'
              (FetchResult.failure e) s) pid = entryStatus s pid := by
            apply entryStatus_congr
            · simp [finishGetProfilesPending]
            · simp only [finishGetProfilesPending,
                profileIDDefaultStep_isFetchingGetProfiles]
              exact upd_ne _ _ hpp
            · simp only [finishGetProfilesPending,
                profileIDDefaultStep_erroredGetProfiles]
              simp [List.mem_cons, hpp]
          exact le_of_eq (congrArg statusRank hcong).symm
    · exact Nat.le_refl _
  | createProfileStartOp pid' name =>
    simp only [applyOp]
    split
    · exact Nat.le_refl _
    · exact Nat.le_refl _
  | settleCreateProfileOp pid' name out =>
    simp only [applyOp]
    split
    · cases out with
      | success p =>
        by_cases hpp : pid = pid'
        · subst hpp
          have hps : ((fetchCreateProfile_finish pid name
              (FetchResult.success p) s).1).profiles pid =
              some ((s.profiles pid).getD [] ++ [p]) := by
            simp [fetchCreateProfile_finish, fetchCreateProfile_reducerCallback]
          have h2 : entryStatus ((fetchCreateProfile_finish pid name
              (FetchResult.success p) s).1) pid = EntryStatus.fetched := by
            simp [entryStatus, hps]
          rw [h2]
          exact statusRank_le_two _
        · have hcong : entryStatus ((fetchCreateProfile_finish pid' name
              (FetchResult.success p) s).1) pid = entryStatus s pid := by
            apply entryStatus_congr
            · simp only [fetchCreateProfile_finish,
                fetchCreateProfile_reducerCallback]
              exact upd_ne _ _ hpp
            · rfl
            · rfl
          exact le_of_eq (congrArg statusRank hcong).symm
      | failure e => exact Nat.le_refl _
    · exact Nat.le_refl _
  | setProfileIDOp id => exact Nat.le_refl _

/-- C8.  On every reachable store state, every event moves a key's status
only forward along `unfetched → fetching → \x7b fetched, errored \x7d`; in
particular once a key is fetched or errored no event — there is no explicit
re-fetch/invalidation operation in this store — returns it to `fetching`. -/
theorem entry_status_monotone (s : State) (hreach : Reachable s) (op : Op)
    (pid : String) :
    statusRank (entryStatus s pid) ≤
      statusRank (entryStatus (applyOp op s) pid) ∧
    ((entryStatus s pid = EntryStatus.fetched ∨
      entryStatus s pid = EntryStatus.errored) →
      entryStatus (applyOp op s) pid ≠ EntryStatus.fetching) := by
  have hinv := reachable_inv hreach
  have hmono := applyOp_rank_mono hinv op pid
  refine ⟨hmono, fun hold hferr => ?_⟩
  have h2 : statusRank (entryStatus s pid) = 2 := by
    rcases hold with h | h <;> rw [h] <;> rfl
  rw [hferr, h2] at hmono
  exact absurd hmono (by decide)

/-- Concrete instance of `entry_status_monotone`: after a read of
`"UA-12-34"` and a successful settlement (a reachable state in which the key
is fetched), a repeated read keeps the status weakly forward and does not
return the key to `fetching`. -/
theorem entry_status_monotone_witness :
    statusRank (entryStatus (applyOp
      (Op.settleGetProfilesOp "UA-12-34" (FetchResult.success [⟨"77", "v"⟩]))
      (applyOp (Op.resolveGetProfilesOp "UA-12-34") INITIAL_STATE))
      "UA-12-34") ≤
    statusRank (entryStatus (applyOp (Op.resolveGetProfilesOp "UA-12-34")
      (applyOp
        (Op.settleGetProfilesOp "UA-12-34" (FetchResult.success [⟨"77", "v"⟩]))
        (applyOp (Op.resolveGetProfilesOp "UA-12-34") INITIAL_STATE)))
      "UA-12-34") ∧
    entryStatus (applyOp (Op.resolveGetProfilesOp "UA-12-34")
      (applyOp
        (Op.settleGetProfilesOp "UA-12-34" (FetchResult.success [⟨"77", "v"⟩]))
        (applyOp (Op.resolveGetProfilesOp "UA-12-34") INITIAL_STATE)))
      "UA-12-34" ≠ EntryStatus.fetching :=
  ⟨(entry_status_monotone _
      (Reachable.step (Op.settleGetProfilesOp "UA-12-34"
        (FetchResult.success [⟨"77", "v"⟩]))
        (Reachable.step (Op.resolveGetProfilesOp "UA-12-34") Reachable.init))
      (Op.resolveGetProfilesOp "UA-12-34") "UA-12-34").1,
   (entry_status_monotone _
      (Reachable.step (Op.settleGetProfilesOp "UA-12-34"
        (FetchResult.success [⟨"77", "v"⟩]))
        (Reachable.step (Op.resolveGetProfilesOp "UA-12-34") Reachable.init))
      (Op.resolveGetProfilesOp "UA-12-34") "UA-12-34").2
     (Or.inl (by decide))⟩
